import Mathlib

/-!
Verification of the rule-and-procedure evaluation core of
`polish-constitution-as-code`: the vote/quorum/majority evaluator, the
cumulative and precedence-ordered condition evaluators, eligibility
checks, the referendum rule and the procedural stage machines.

Python exceptions are modelled as the `Except KError` monad; an
`assert` failure is modelled as the distinguished `KError.assertionFailure`
constructor, which is not part of the `ConstitutionalError` hierarchy.
-/

deriving instance DecidableEq for Except

namespace Konstytucja

/-- Chamber of parliament (`Chamber` in `common/types.py`). -/
inductive Chamber where
  | SEJM
  | SENATE
deriving DecidableEq, Repr

/-- Majority types specified in the Constitution (`MajorityType` in `common/types.py`). -/
inductive MajorityType where
  | SIMPLE
  | ABSOLUTE
  | TWO_THIRDS
  | THREE_FIFTHS
deriving DecidableEq, Repr

/-- Errors raised by the constitutional core.  Each constructor stands for one
exception class of `common/errors.py`; `assertionFailure` stands for a failed
Python `assert`, which is not a `ConstitutionalError`.  Exceptions that the
source builds by joining a list of condition descriptions carry that list
directly (the Python message is the `; `-join of the list, with a
context prefix). -/
inductive KError where
  | quorum (message : String)
  | majority (required : MajorityType) (message : String)
  | eligibility (article : String) (reasons : List String)
  | rightsRestriction (article : String) (reasons : List String)
  | extradition (article : String) (message : String)
  | incompatibility (article : String) (message : String)
  | referendum (article : String) (message : String)
  | legislativeProcess (message : String)
  | amendmentProcess (message : String)
  | governmentFormation (message : String)
  | assertionFailure (message : String)
deriving DecidableEq, Repr

/-- Whether an error belongs to the `ConstitutionalError` hierarchy (every
constructor except a Python `assert` failure). -/
def KError.isConstitutional : KError → Bool
  | .assertionFailure _ => false
  | _ => true

/-- Vote record (`VoteRecord` in `common/types.py`).  Python `int` counts are
modelled as `Int`. -/
structure VoteRecord where
  chamber : Chamber
  votes_for : Int
  votes_against : Int
  votes_abstain : Int := 0
  statutory_members : Option Int := none
deriving DecidableEq, Repr

/-- `VoteRecord.total_present` property. -/
def VoteRecord.total_present (v : VoteRecord) : Int :=
  v.votes_for + v.votes_against + v.votes_abstain

/-- `VoteRecord.members` property: the statutory number of members for the
chamber (460 for the Sejm, 100 for the Senate) unless overridden. -/
def VoteRecord.members (v : VoteRecord) : Int :=
  match v.statutory_members with
  | some m => m
  | none =>
    match v.chamber with
    | .SEJM => 460
    | .SENATE => 100

/-- English name of a majority kind, used in the `MajorityError` message
(the test suite matches the veto-override failure message on
`Three-fifths`). -/
def majorityName : MajorityType → String
  | .SIMPLE => "Simple"
  | .ABSOLUTE => "Absolute"
  | .TWO_THIRDS => "Two-thirds"
  | .THREE_FIFTHS => "Three-fifths"

/-- Modelled from the spec: the repository imports `passes_vote` from
`konstytucja.common.voting`, whose source file is not present under `src/`.
Spec section 4.1: the quorum rule `total_present * 2 >= statutory_membership`
is checked first and fails with `QuorumError`; only then is the majority
formula of the requested kind checked — Simple `for > against`, Absolute
`for * 2 > membership`, TwoThirds `for * 3 >= membership * 2`, ThreeFifths
`for * 5 >= membership * 3` — failing with a `MajorityError` that names the
required majority kind. -/
def passes_vote (vote : VoteRecord) (kind : MajorityType) : Except KError Bool :=
  if vote.total_present * 2 < vote.members then
    .error (.quorum ("Quorum not met: fewer than half of the statutory members are present"))
  else
    let met : Bool :=
      match kind with
      | .SIMPLE => decide (vote.votes_against < vote.votes_for)
      | .ABSOLUTE => decide (vote.members < vote.votes_for * 2)
      | .TWO_THIRDS => decide (vote.members * 2 ≤ vote.votes_for * 3)
      | .THREE_FIFTHS => decide (vote.members * 3 ≤ vote.votes_for * 5)
    if met then .ok true
    else .error (.majority kind (majorityName kind ++ " majority not reached"))

/-- `sejm_passes_bill` (`chapter_04_sejm_senate.py`): asserts the vote is from
the Sejm, then delegates to `passes_vote` with `SIMPLE`. -/
def sejm_passes_bill (vote : VoteRecord) : Except KError Bool :=
  if vote.chamber = Chamber.SEJM then passes_vote vote .SIMPLE
  else .error (.assertionFailure ("Vote must be from the Sejm"))

/-- `senate_passes_bill` (`chapter_04_sejm_senate.py`): asserts the vote is
from the Senate, then delegates to `passes_vote` with `SIMPLE`. -/
def senate_passes_bill (vote : VoteRecord) : Except KError Bool :=
  if vote.chamber = Chamber.SENATE then passes_vote vote .SIMPLE
  else .error (.assertionFailure ("Vote must be from the Senate"))

/-- `sejm_overrides_senate` (`chapter_04_sejm_senate.py`): asserts the vote is
from the Sejm, then delegates to `passes_vote` with `ABSOLUTE`. -/
def sejm_overrides_senate (vote : VoteRecord) : Except KError Bool :=
  if vote.chamber = Chamber.SEJM then passes_vote vote .ABSOLUTE
  else .error (.assertionFailure ("Override vote must be from the Sejm"))

/-- `sejm_overrides_veto` (`chapter_05_president.py`): asserts the vote is
from the Sejm, then delegates to `passes_vote` with `THREE_FIFTHS`. -/
def sejm_overrides_veto (vote : VoteRecord) : Except KError Bool :=
  if vote.chamber = Chamber.SEJM then passes_vote vote .THREE_FIFTHS
  else .error (.assertionFailure ("Veto override vote must be from the Sejm"))

/-- The twelve offices incompatible with a parliamentary mandate
(`INCOMPATIBLE_WITH_DEPUTY` in `chapter_04_sejm_senate.py`). -/
def INCOMPATIBLE_WITH_DEPUTY : List String :=
  ["Senator",
   "President of the National Bank of Poland",
   "President of the Supreme Chamber of Control",
   "Commissioner for Citizens\x27 Rights",
   "Commissioner for Children\x27s Rights",
   "Member of the Council for Monetary Policy",
   "Member of the National Council of Radio Broadcasting and Television",
   "Ambassador",
   "Civil servant",
   "Soldier on active duty",
   "Police officer",
   "Security services officer"]

/-- `check_incompatibility` (`chapter_04_sejm_senate.py`): membership of the
office string in `INCOMPATIBLE_WITH_DEPUTY` raises `IncompatibilityError`
tagged article 103; otherwise the office is compatible. -/
def check_incompatibility (office : String) : Except KError Bool :=
  if office ∈ INCOMPATIBLE_WITH_DEPUTY then
    .error (.incompatibility ("103")
      ("A parliamentary mandate cannot be held jointly with the office of \x27"
        ++ office ++ "\x27."))
  else .ok true

/-- `validate_referendum` (`chapter_04_sejm_senate.py`): requires positive
`eligible_voters`, turnout strictly above 50 percent (article 125(3)),
and strictly more votes for than against. -/
def validate_referendum (votes_for votes_against eligible_voters : Int) :
    Except KError Bool :=
  if eligible_voters ≤ 0 then
    .error (.referendum ("125") ("Number of eligible voters must be positive."))
  else
    let total_votes := votes_for + votes_against
    if total_votes * 2 ≤ eligible_voters then
      .error (.referendum ("125(3)")
        ("Referendum not binding: turnout " ++ toString total_votes ++ "/"
          ++ toString eligible_voters ++ " does not exceed 50%."))
    else if votes_for ≤ votes_against then
      .error (.referendum ("125")
        ("Referendum rejected: " ++ toString votes_for ++ " for vs "
          ++ toString votes_against ++ " against."))
    else .ok true

/-- A Gregorian calendar date as used by the source (Python `datetime.date`);
only the year/month/day fields matter to the code under verification. -/
structure Date where
  year : Int
  month : Int
  day : Int
deriving DecidableEq, Repr

/-- Python tuple comparison `(m1, d1) < (m2, d2)` on month/day pairs, as used
by `Citizen.age_at`. -/
def monthDayLt (m1 d1 m2 d2 : Int) : Bool :=
  decide (m1 < m2 ∨ (m1 = m2 ∧ d1 < d2))

/-- Polish citizen (`Citizen` in `common/types.py`). -/
structure Citizen where
  name : String
  date_of_birth : Date
  polish_citizen : Bool := true
  criminal_record : Bool := false
deriving DecidableEq, Repr

/-- `Citizen.age_at` (`common/types.py`): completed years on `on_date`,
subtracting one when the month/day of `on_date` precedes the month/day of
birth. -/
def Citizen.age_at (c : Citizen) (on_date : Date) : Int :=
  let born := c.date_of_birth
  let age := on_date.year - born.year
  if monthDayLt on_date.month on_date.day born.month born.day then age - 1 else age

/-- Whether the `k`-th birthday of someone born on `dob` falls on or before
day `d`: lexicographic comparison of `(dob.year + k, dob.month, dob.day)`
with `(d.year, d.month, d.day)`.  Used to state the age-boundary property. -/
def nthBirthdayBy (dob : Date) (k : Int) (d : Date) : Bool :=
  decide (dob.year + k < d.year ∨
    (dob.year + k = d.year ∧ monthDayLt d.month d.day dob.month dob.day = false))

/-- `check_sejm_eligibility` (`chapter_04_sejm_senate.py`): Polish
citizenship, age at least 21 on election day, clean criminal record;
failures are collected in order and raised as `EligibilityError` tagged
article 99(1).  The Python message embeds the citizen name and joins the
reasons with `; `; the reasons are carried as a list here. -/
def check_sejm_eligibility (citizen : Citizen) (election_date : Date) :
    Except KError Bool :=
  let errors : List String :=
    (if citizen.polish_citizen then [] else ["must be a Polish citizen"]) ++
    (if citizen.age_at election_date < 21 then
      ["must be at least 21 (is " ++ toString (citizen.age_at election_date) ++ ")"]
     else []) ++
    (if citizen.criminal_record then
      ["convicted by final judgment for an intentional crime prosecuted ex officio (Art. 99(3), nowelizacja 2009)"]
     else [])
  if errors.isEmpty then .ok true
  else .error (.eligibility ("99(1)") errors)

/-- `check_senate_eligibility` (`chapter_04_sejm_senate.py`): same as the
Sejm check with age threshold 30 and article 99(2). -/
def check_senate_eligibility (citizen : Citizen) (election_date : Date) :
    Except KError Bool :=
  let errors : List String :=
    (if citizen.polish_citizen then [] else ["must be a Polish citizen"]) ++
    (if citizen.age_at election_date < 30 then
      ["must be at least 30 (is " ++ toString (citizen.age_at election_date) ++ ")"]
     else []) ++
    (if citizen.criminal_record then
      ["convicted by final judgment for an intentional crime prosecuted ex officio (Art. 99(3), nowelizacja 2009)"]
     else [])
  if errors.isEmpty then .ok true
  else .error (.eligibility ("99(2)") errors)

/-- `MIN_SIGNATURES` (`chapter_05_president.py`): at least 100000 citizen
signatures to register a presidential candidate. -/
def MIN_SIGNATURES : Int := 100000

/-- `check_presidential_eligibility` (`chapter_05_president.py`): Polish
citizenship, age at least 35 on election day, clean criminal record and at
least `MIN_SIGNATURES` signatures; failures are collected in order and
raised as `EligibilityError` tagged article 127(3).  The Python f-string
prints the signature counts with thousands separators; plain decimal
rendering is used here. -/
def check_presidential_eligibility (citizen : Citizen) (election_date : Date)
    (signatures : Int) : Except KError Bool :=
  let errors : List String :=
    (if citizen.polish_citizen then [] else ["must be a Polish citizen"]) ++
    (if citizen.age_at election_date < 35 then
      ["must be at least 35 (is " ++ toString (citizen.age_at election_date) ++ ")"]
     else []) ++
    (if citizen.criminal_record then
      ["lacks full electoral rights: convicted by final judgment for an intentional crime prosecuted ex officio (Art. 99(3), nowelizacja 2009)"]
     else []) ++
    (if signatures < MIN_SIGNATURES then
      ["needs at least " ++ toString MIN_SIGNATURES ++ " signatures (has "
        ++ toString signatures ++ ")"]
     else [])
  if errors.isEmpty then .ok true
  else .error (.eligibility ("127(3)") errors)

/-- Rights restriction proposal (`RightsRestriction` in `common/types.py`):
the five cumulative conditions of article 31(3). -/
structure RightsRestriction where
  description : String
  by_statute : Bool := false
  necessary_in_democratic_state : Bool := false
  legitimate_aim : Bool := false
  proportionate : Bool := false
  preserves_essence : Bool := false
deriving DecidableEq, Repr

/-- `validate_rights_restriction` (`chapter_02_rights.py`): checks the five
conditions in declaration order, appending a description for each false one;
a non-empty list is raised as a single `RightsRestrictionError` tagged
article 31(3).  The Python message is
`Restriction <description> fails Art. 31(3): ` followed by the `; `-join of
the list; the ordered list is carried directly here. -/
def validate_rights_restriction (restriction : RightsRestriction) :
    Except KError Bool :=
  let failures : List String :=
    (if restriction.by_statute then [] else
      ["not established by statute (ustawa)"]) ++
    (if restriction.necessary_in_democratic_state then [] else
      ["not necessary in a democratic state"]) ++
    (if restriction.legitimate_aim then [] else
      ["does not pursue a legitimate aim (security, public order, environment, health, public morals, or freedoms of others)"]) ++
    (if restriction.proportionate then [] else
      ["not proportionate to the aim pursued"]) ++
    (if restriction.preserves_essence then [] else
      ["violates the essence of the freedom or right"])
  if failures.isEmpty then .ok true
  else .error (.rightsRestriction ("31(3)") failures)

/-- The five conditions of article 31(3) in their fixed declaration order,
each paired with the description reported when it is false.  Mirrors the
order of the checks in `validate_rights_restriction` and of the fields of
`RightsRestriction`. -/
def rrConditions : List ((RightsRestriction → Bool) × String) :=
  [(fun r => r.by_statute,
    "not established by statute (ustawa)"),
   (fun r => r.necessary_in_democratic_state,
    "not necessary in a democratic state"),
   (fun r => r.legitimate_aim,
    "does not pursue a legitimate aim (security, public order, environment, health, public morals, or freedoms of others)"),
   (fun r => r.proportionate,
    "not proportionate to the aim pursued"),
   (fun r => r.preserves_essence,
    "violates the essence of the freedom or right")]

/-- Extradition request under article 55.  The dataclass is declared in
`konstytucja.common.types` in the repository; its definition is not present
under `src/`, so the fields are reconstructed from their uses in
`chapter_02_rights.py` and the test suite. -/
structure ExtraditionRequest where
  subject_is_polish_citizen : Bool
  requesting_state_or_body : String
  based_on_ratified_treaty : Bool := false
  act_committed_abroad : Bool := false
  double_criminality : Bool := false
  international_judicial_body : Bool := false
  genocide_or_war_crime : Bool := false
  political_nonviolent_offense : Bool := false
  violates_human_rights : Bool := false
  court_approved : Bool := false
deriving DecidableEq, Repr

/-- `validate_extradition` (`chapter_02_rights.py`): precedence-ordered
evaluation of article 55 — absolute prohibitions of 55(4) first, then the
court gate of 55(5), then the non-citizen exit, the international-tribunal
exception of 55(3), treaty-based extradition under 55(2) with its two
cumulative sub-conditions, and the default prohibition of 55(1). -/
def validate_extradition (request : ExtraditionRequest) : Except KError Bool :=
  if request.political_nonviolent_offense then
    .error (.extradition ("55(4)")
      ("Extradition prohibited: concerns a nonviolent political offence (przestępstwo bez użycia przemocy z przyczyn politycznych)"))
  else if request.violates_human_rights then
    .error (.extradition ("55(4)")
      ("Extradition prohibited: would violate human rights and freedoms (naruszenie wolności i praw człowieka i obywatela)"))
  else if !request.court_approved then
    .error (.extradition ("55(5)")
      ("Extradition inadmissible: court has not ruled on admissibility (sąd nie orzekł o dopuszczalności ekstradycji)"))
  else if !request.subject_is_polish_citizen then
    .ok true
  else if request.international_judicial_body
      && request.based_on_ratified_treaty
      && request.genocide_or_war_crime then
    .ok true
  else if request.based_on_ratified_treaty then
    let failures : List String :=
      (if request.act_committed_abroad then [] else
        ["act was not committed outside Polish territory (Art. 55(2)(1))"]) ++
      (if request.double_criminality then [] else
        ["act does not constitute an offence under Polish law (Art. 55(2)(2))"])
    if failures.isEmpty then .ok true
    else
      .error (.extradition ("55(2)")
        ("Extradition of Polish citizen denied: " ++ String.intercalate ("; ") failures))
  else
    .error (.extradition ("55(1)")
      ("Extradition of a Polish citizen is prohibited (ekstradycja obywatela polskiego jest zakazana)"))

/-- Legislative process stages (`BillStage` in `common/types.py`). -/
inductive BillStage where
  | INITIATED
  | SEJM_DELIBERATION
  | SEJM_PASSED
  | SENATE_DELIBERATION
  | SENATE_PASSED
  | SENATE_AMENDED
  | SENATE_REJECTED
  | SEJM_OVERRIDE_VOTE
  | PRESIDENT_REVIEW
  | SIGNED
  | VETOED
  | VETO_OVERRIDE_VOTE
  | VETO_OVERRIDDEN
  | REFERRED_TO_TRIBUNAL
  | PARTIALLY_UNCONSTITUTIONAL
  | ENACTED
  | REJECTED
deriving DecidableEq, Repr

/-- Amendment procedure stages (`AmendmentStage` in `common/types.py`). -/
inductive AmendmentStage where
  | INITIATED
  | FIRST_READING_SEJM
  | SEJM_PASSED
  | SENATE_PASSED
  | REFERENDUM_REQUESTED
  | REFERENDUM_PASSED
  | PRESIDENT_SIGNS
  | ADOPTED
  | REJECTED
deriving DecidableEq, Repr

/-- Government formation stages (`GovernmentFormationStage` in
`common/types.py`). -/
inductive GovernmentFormationStage where
  | PRESIDENT_DESIGNATES
  | CONFIDENCE_VOTE
  | SEJM_ELECTS
  | PRESIDENT_APPOINTS_RETRY
  | APPOINTED
  | FAILED
deriving DecidableEq, Repr

/-- Outcomes of Constitutional Tribunal review (`TribunalVerdictType` in
`common/types.py`). -/
inductive TribunalVerdictType where
  | CONSTITUTIONAL
  | UNCONSTITUTIONAL
  | PARTIALLY_UNCONSTITUTIONAL
deriving DecidableEq, Repr

/-- The Senate's decision on a bill: pass it, amend it, or reject it
(spec section 3: `{SenatePassed | SenateAmended | SenateRejected}`). -/
inductive SenateAction where
  | pass
  | amend
  | reject
deriving DecidableEq, Repr

/-- The President's decision on a presented bill: sign, veto, or refer to the
Constitutional Tribunal (spec section 3:
`{Signed | Vetoed | ReferredToTribunal}`). -/
inductive PresidentAction where
  | sign
  | veto
  | refer
deriving DecidableEq, Repr

/-- One external input to the bill stage machine: a vote evaluator result or
an external actor decision (spec section 4.4). -/
inductive BillInput where
  | proceed
  | sejmVote (passed : Bool)
  | senateDecision (d : SenateAction)
  | overrideVote (passed : Bool)
  | presidentDecision (d : PresidentAction)
  | vetoOverrideVote (passed : Bool)
  | tribunalVerdict (v : TribunalVerdictType)
deriving DecidableEq, Repr

/-- Modelled from the spec: the repository declares the `BillStage`
enumeration but no transition function is present under `src/`.  Spec
sections 3 and 4.4: the stage graph
`Initiated → SejmDeliberation → SejmPassed → SenateDeliberation →
(SenatePassed | SenateAmended | SenateRejected) → [SejmOverrideVote] →
PresidentReview → (Signed | Vetoed | ReferredToTribunal) →
[VetoOverrideVote] → (Enacted | Rejected)`; `PartiallyUnconstitutional`
is never auto-resolved by the core; a transition out of a terminal stage
(`ENACTED`, `REJECTED`) is a fatal programming-contract error, and a stage
given a non-matching input fails with a `LegislativeProcessError`. -/
def billTransition (s : BillStage) (i : BillInput) : Except KError BillStage :=
  match s, i with
  | .ENACTED, _ =>
    .error (.assertionFailure ("Bill procedure already terminal: ENACTED"))
  | .REJECTED, _ =>
    .error (.assertionFailure ("Bill procedure already terminal: REJECTED"))
  | .INITIATED, .proceed => .ok .SEJM_DELIBERATION
  | .SEJM_DELIBERATION, .sejmVote passed =>
    .ok (if passed then .SEJM_PASSED else .REJECTED)
  | .SEJM_PASSED, .proceed => .ok .SENATE_DELIBERATION
  | .SENATE_DELIBERATION, .senateDecision .pass => .ok .SENATE_PASSED
  | .SENATE_DELIBERATION, .senateDecision .amend => .ok .SENATE_AMENDED
  | .SENATE_DELIBERATION, .senateDecision .reject => .ok .SENATE_REJECTED
  | .SENATE_PASSED, .proceed => .ok .PRESIDENT_REVIEW
  | .SENATE_AMENDED, .proceed => .ok .SEJM_OVERRIDE_VOTE
  | .SENATE_REJECTED, .proceed => .ok .SEJM_OVERRIDE_VOTE
  | .SEJM_OVERRIDE_VOTE, .overrideVote passed =>
    .ok (if passed then .PRESIDENT_REVIEW else .REJECTED)
  | .PRESIDENT_REVIEW, .presidentDecision .sign => .ok .SIGNED
  | .PRESIDENT_REVIEW, .presidentDecision .veto => .ok .VETOED
  | .PRESIDENT_REVIEW, .presidentDecision .refer => .ok .REFERRED_TO_TRIBUNAL
  | .SIGNED, .proceed => .ok .ENACTED
  | .VETOED, .proceed => .ok .VETO_OVERRIDE_VOTE
  | .VETO_OVERRIDE_VOTE, .vetoOverrideVote passed =>
    .ok (if passed then .VETO_OVERRIDDEN else .REJECTED)
  | .VETO_OVERRIDDEN, .proceed => .ok .ENACTED
  | .REFERRED_TO_TRIBUNAL, .tribunalVerdict .CONSTITUTIONAL => .ok .SIGNED
  | .REFERRED_TO_TRIBUNAL, .tribunalVerdict .UNCONSTITUTIONAL => .ok .REJECTED
  | .REFERRED_TO_TRIBUNAL, .tribunalVerdict .PARTIALLY_UNCONSTITUTIONAL =>
    .ok .PARTIALLY_UNCONSTITUTIONAL
  | _, _ =>
    .error (.legislativeProcess ("Invalid transition for the current bill stage"))

/-- Modelled from the spec: the repository declares the `AmendmentStage`
enumeration but no transition function is present under `src/`.  Spec
section 3: the linear article 235 chain, each gated step advancing on a
successful vote or actor decision and otherwise rejecting; a transition out
of a terminal stage (`ADOPTED`, `REJECTED`) is a fatal programming-contract
error. -/
def amendmentTransition (s : AmendmentStage) (passed : Bool) :
    Except KError AmendmentStage :=
  match s with
  | .ADOPTED =>
    .error (.assertionFailure ("Amendment procedure already terminal: ADOPTED"))
  | .REJECTED =>
    .error (.assertionFailure ("Amendment procedure already terminal: REJECTED"))
  | .INITIATED => .ok .FIRST_READING_SEJM
  | .FIRST_READING_SEJM => .ok (if passed then .SEJM_PASSED else .REJECTED)
  | .SEJM_PASSED => .ok (if passed then .SENATE_PASSED else .REJECTED)
  | .SENATE_PASSED => .ok .REFERENDUM_REQUESTED
  | .REFERENDUM_REQUESTED => .ok (if passed then .REFERENDUM_PASSED else .REJECTED)
  | .REFERENDUM_PASSED => .ok .PRESIDENT_SIGNS
  | .PRESIDENT_SIGNS => .ok (if passed then .ADOPTED else .REJECTED)

/-- Modelled from the spec: the repository declares the
`GovernmentFormationStage` enumeration but no transition function is present
under `src/`.  Spec section 4.4: the fixed articles 154 to 155 chain —
President designates, Sejm confidence vote, on failure the Sejm elects, on
failure the President appoints again with the Sejm voting, and only on that
last failure the machine reaches `FAILED`; a transition out of a terminal
stage (`APPOINTED`, `FAILED`) is a fatal programming-contract error. -/
def govTransition (s : GovernmentFormationStage) (passed : Bool) :
    Except KError GovernmentFormationStage :=
  match s with
  | .APPOINTED =>
    .error (.assertionFailure ("Government formation already terminal: APPOINTED"))
  | .FAILED =>
    .error (.assertionFailure ("Government formation already terminal: FAILED"))
  | .PRESIDENT_DESIGNATES => .ok .CONFIDENCE_VOTE
  | .CONFIDENCE_VOTE => .ok (if passed then .APPOINTED else .SEJM_ELECTS)
  | .SEJM_ELECTS => .ok (if passed then .APPOINTED else .PRESIDENT_APPOINTS_RETRY)
  | .PRESIDENT_APPOINTS_RETRY => .ok (if passed then .APPOINTED else .FAILED)

/-!  Theorems.  -/

theorem nthBirthdayBy_eq_age (c : Citizen) (d : Date) (k : Int) :
    nthBirthdayBy c.date_of_birth k d = decide (k ≤ c.age_at d) := by
  cases h : monthDayLt d.month d.day c.date_of_birth.month c.date_of_birth.day <;>
    simp only [nthBirthdayBy, Citizen.age_at, h, if_true, if_false, Bool.false_eq_true,
      Bool.true_eq_false, and_false, and_true, or_false] <;>
    rw [decide_eq_decide] <;> omega

/-- C1: for every Sejm vote record whose quorum holds, the majority
evaluators decide success by the closed-form formulas — `sejm_passes_bill`
(Simple) succeeds iff `votes_for > votes_against`, independent of the
membership; `sejm_overrides_senate` (Absolute) iff
`2 * votes_for > members`; `sejm_overrides_veto` (ThreeFifths) iff
`5 * votes_for >= 3 * members`; `passes_vote` with TwoThirds iff
`3 * votes_for >= 2 * members` — and on failure raise a `MajorityError`
naming the required majority kind. -/
theorem vote_evaluators_closed_form (v : VoteRecord)
    (hc : v.chamber = Chamber.SEJM)
    (hq : v.members ≤ v.total_present * 2) :
    (sejm_passes_bill v =
      if v.votes_against < v.votes_for then .ok true
      else .error (.majority .SIMPLE ("Simple majority not reached"))) ∧
    (sejm_overrides_senate v =
      if v.members < v.votes_for * 2 then .ok true
      else .error (.majority .ABSOLUTE ("Absolute majority not reached"))) ∧
    (sejm_overrides_veto v =
      if v.members * 3 ≤ v.votes_for * 5 then .ok true
      else .error (.majority .THREE_FIFTHS ("Three-fifths majority not reached"))) ∧
    (passes_vote v .TWO_THIRDS =
      if v.members * 2 ≤ v.votes_for * 3 then .ok true
      else .error (.majority .TWO_THIRDS ("Two-thirds majority not reached"))) := by
  have hq' : ¬ (v.total_present * 2 < v.members) := by omega
  refine ⟨?_, ?_, ?_, ?_⟩ <;>
    simp only [sejm_passes_bill, sejm_overrides_senate, sejm_overrides_veto, hc,
      if_true, reduceIte, passes_vote, hq', if_false, majorityName,
      decide_eq_true_eq] <;>
    split <;> simp_all

/-- Witness for C1: the two boundary examples of the spec — 276 of 460 meets
ThreeFifths exactly, 230 of 460 does not meet Absolute. -/
theorem vote_evaluators_closed_form_witness :
    sejm_overrides_veto ⟨.SEJM, 276, 184, 0, none⟩ = .ok true ∧
    sejm_overrides_senate ⟨.SEJM, 230, 100, 50, none⟩ =
      .error (.majority .ABSOLUTE ("Absolute majority not reached")) := by
  constructor
  · rw [(vote_evaluators_closed_form ⟨.SEJM, 276, 184, 0, none⟩ rfl (by decide)).2.2.1]
    decide
  · rw [(vote_evaluators_closed_form ⟨.SEJM, 230, 100, 50, none⟩ rfl (by decide)).2.1]
    decide

/-- C2: for every vote record and majority kind, the quorum check
`total_present * 2 >= members` is decided before any majority check — a
tally failing quorum yields `QuorumError` regardless of the majority, and a
tally meeting quorum (half present is enough) never yields `QuorumError`. -/
theorem passes_vote_quorum_first (v : VoteRecord) (kind : MajorityType) :
    (v.total_present * 2 < v.members →
      passes_vote v kind = .error (.quorum
        ("Quorum not met: fewer than half of the statutory members are present"))) ∧
    (v.members ≤ v.total_present * 2 →
      ∀ m, passes_vote v kind ≠ .error (.quorum m)) := by
  constructor
  · intro h
    simp only [passes_vote, h, if_true, reduceIte]
  · intro h m
    have h' : ¬ (v.total_present * 2 < v.members) := by omega
    simp only [passes_vote, h', if_false, reduceIte]
    split <;> simp

/-- Witness for C2: 100 for, 120 against in the Sejm — only 220 of 460
present, so quorum fails, and the reported error is `QuorumError` even
though the simple majority would fail as well. -/
theorem passes_vote_quorum_first_witness :
    passes_vote ⟨.SEJM, 100, 120, 0, none⟩ .SIMPLE = .error (.quorum
      ("Quorum not met: fewer than half of the statutory members are present")) ∧
    (100 : Int) < 120 :=
  ⟨(passes_vote_quorum_first ⟨.SEJM, 100, 120, 0, none⟩ .SIMPLE).1 (by decide),
   by decide⟩

/-- C3: any extradition request with `violates_human_rights` (or
`political_nonviolent_offense`) set fails under article 55(4) regardless of
every other field — including a simultaneously qualifying
international-tribunal genocide combination and requests without court
approval. -/
theorem extradition_absolute_prohibition (req : ExtraditionRequest)
    (h : req.violates_human_rights = true ∨ req.political_nonviolent_offense = true) :
    ∃ m, validate_extradition req = .error (.extradition ("55(4)") m) := by
  cases hp : req.political_nonviolent_offense
  · have hv : req.violates_human_rights = true := by
      rcases h with h | h
      · exact h
      · exact absurd h (by simp [hp])
    exact ⟨"Extradition prohibited: would violate human rights and freedoms (naruszenie wolności i praw człowieka i obywatela)",
      by simp [validate_extradition, hp, hv]⟩
  · exact ⟨"Extradition prohibited: concerns a nonviolent political offence (przestępstwo bez użycia przemocy z przyczyn politycznych)",
      by simp [validate_extradition, hp]⟩

/-- Witness for C3: a request that is simultaneously a qualifying
international-tribunal genocide request, has no court approval, and violates
human rights, still fails under 55(4). -/
theorem extradition_absolute_prohibition_witness :
    ∃ m, validate_extradition
      ⟨true, "International Criminal Court", true, true, true, true, true, false, true, false⟩ =
      .error (.extradition ("55(4)") m) :=
  extradition_absolute_prohibition
    ⟨true, "International Criminal Court", true, true, true, true, true, false, true, false⟩
    (Or.inl rfl)

/-- C4: with neither tier-1 flag set, `validate_extradition` decides in the
fixed order — missing court approval fails under 55(5) (also for
non-citizens); a non-citizen then succeeds; the international-tribunal
combination succeeds, bypassing the treaty sub-conditions; a treaty-based
request succeeds iff the act was committed abroad and double criminality
holds, otherwise failing under 55(2) listing each false sub-condition; and
the default is the 55(1) prohibition. -/
theorem extradition_tier_order (req : ExtraditionRequest)
    (hp : req.political_nonviolent_offense = false)
    (hh : req.violates_human_rights = false) :
    (req.court_approved = false →
      validate_extradition req = .error (.extradition ("55(5)")
        ("Extradition inadmissible: court has not ruled on admissibility (sąd nie orzekł o dopuszczalności ekstradycji)"))) ∧
    (req.court_approved = true → req.subject_is_polish_citizen = false →
      validate_extradition req = .ok true) ∧
    (req.court_approved = true → req.subject_is_polish_citizen = true →
      req.international_judicial_body = true → req.based_on_ratified_treaty = true →
      req.genocide_or_war_crime = true →
      validate_extradition req = .ok true) ∧
    (req.court_approved = true → req.subject_is_polish_citizen = true →
      (req.international_judicial_body && req.genocide_or_war_crime) = false →
      req.based_on_ratified_treaty = true →
      validate_extradition req =
        (if req.act_committed_abroad && req.double_criminality then .ok true
         else .error (.extradition ("55(2)")
          ("Extradition of Polish citizen denied: " ++ String.intercalate ("; ")
            ((if req.act_committed_abroad then [] else
              ["act was not committed outside Polish territory (Art. 55(2)(1))"]) ++
             (if req.double_criminality then [] else
              ["act does not constitute an offence under Polish law (Art. 55(2)(2))"])))))) ∧
    (req.court_approved = true → req.subject_is_polish_citizen = true →
      req.based_on_ratified_treaty = false →
      validate_extradition req = .error (.extradition ("55(1)")
        ("Extradition of a Polish citizen is prohibited (ekstradycja obywatela polskiego jest zakazana)"))) := by
  refine ⟨?_, ?_, ?_, ?_, ?_⟩
  · intro hcourt
    simp [validate_extradition, hp, hh, hcourt]
  · intro hcourt hcit
    simp [validate_extradition, hp, hh, hcourt, hcit]
  · intro hcourt hcit hij htr hg
    simp [validate_extradition, hp, hh, hcourt, hcit, hij, htr, hg]
  · intro hcourt hcit hcombo htr
    cases ha : req.act_committed_abroad <;> cases hd : req.double_criminality <;>
      simp [validate_extradition, hp, hh, hcourt, hcit, htr, hcombo, ha, hd]
  · intro hcourt hcit htr
    simp [validate_extradition, hp, hh, hcourt, hcit, htr]

set_option maxRecDepth 8192 in
/-- Witness for C4: a Polish citizen, treaty-based request with court
approval where neither sub-condition holds fails under 55(2) listing both
missing sub-conditions. -/
theorem extradition_tier_order_witness :
    validate_extradition ⟨true, "Spain", true, false, false, false, false, false, false, true⟩ =
      .error (.extradition ("55(2)")
        ("Extradition of Polish citizen denied: act was not committed outside Polish territory (Art. 55(2)(1)); act does not constitute an offence under Polish law (Art. 55(2)(2))")) := by
  have h := (extradition_tier_order
    ⟨true, "Spain", true, false, false, false, false, false, false, true⟩ rfl rfl).2.2.2.1
    rfl rfl (by decide) rfl
  rw [h]
  decide

/-- C5: `validate_rights_restriction` succeeds iff all five conditions hold;
otherwise it raises exactly one `RightsRestrictionError` tagged 31(3) whose
reasons are the descriptions of every false condition — never a proper
subset — in the fixed declaration order of `rrConditions`. -/
theorem rights_restriction_cumulative (r : RightsRestriction) :
    (validate_rights_restriction r = .ok true ↔
      (r.by_statute = true ∧ r.necessary_in_democratic_state = true ∧
       r.legitimate_aim = true ∧ r.proportionate = true ∧
       r.preserves_essence = true)) ∧
    (¬ (r.by_statute = true ∧ r.necessary_in_democratic_state = true ∧
        r.legitimate_aim = true ∧ r.proportionate = true ∧
        r.preserves_essence = true) →
      validate_rights_restriction r = .error (.rightsRestriction ("31(3)")
        ((rrConditions.filter (fun p => !(p.1 r))).map Prod.snd))) := by
  obtain ⟨desc, b1, b2, b3, b4, b5⟩ := r
  cases b1 <;> cases b2 <;> cases b3 <;> cases b4 <;> cases b5 <;>
    simp [validate_rights_restriction, rrConditions]

/-- Witness for C5: the all-false restriction is reported with all five
descriptions in declaration order. -/
theorem rights_restriction_cumulative_witness :
    validate_rights_restriction ⟨"Terrible restriction", false, false, false, false, false⟩ =
      .error (.rightsRestriction ("31(3)")
        ["not established by statute (ustawa)",
         "not necessary in a democratic state",
         "does not pursue a legitimate aim (security, public order, environment, health, public morals, or freedoms of others)",
         "not proportionate to the aim pursued",
         "violates the essence of the freedom or right"]) := by
  have h := (rights_restriction_cumulative
    ⟨"Terrible restriction", false, false, false, false, false⟩).2 (by simp)
  rw [h]
  decide

/-- C6: for non-negative tallies and a positive electorate,
`validate_referendum` returns true iff the turnout strictly exceeds half of
the eligible voters and strictly more vote for than against; a turnout of
exactly half or less is reported as not binding under 125(3), and a binding
turnout with `votes_for <= votes_against` is rejected with a
`ReferendumError`. -/
theorem referendum_binding_majority (f a e : Int)
    (hf : 0 ≤ f) (ha : 0 ≤ a) (he : 0 < e) :
    (validate_referendum f a e = .ok true ↔ (e < (f + a) * 2 ∧ a < f)) ∧
    ((f + a) * 2 ≤ e →
      validate_referendum f a e = .error (.referendum ("125(3)")
        ("Referendum not binding: turnout " ++ toString (f + a) ++ "/"
          ++ toString e ++ " does not exceed 50%."))) ∧
    (e < (f + a) * 2 → f ≤ a →
      validate_referendum f a e = .error (.referendum ("125")
        ("Referendum rejected: " ++ toString f ++ " for vs "
          ++ toString a ++ " against."))) := by
  have h0 : ¬ (e ≤ 0) := by omega
  refine ⟨?_, ?_, ?_⟩
  · by_cases h1 : (f + a) * 2 ≤ e
    · simp [validate_referendum, h0, h1]
      try omega
    · by_cases h2 : f ≤ a <;> simp [validate_referendum, h0, h1, h2] <;> try omega
  · intro h1
    simp [validate_referendum, h0, h1]
  · intro h1 h2
    simp [validate_referendum, h0, h2, show ¬ ((f + a) * 2 ≤ e) by omega]

/-- Witness for C6: 300001 for, 200000 against, 1000000 eligible succeeds
(turnout 500001 strictly exceeds half), while 300000 for with the same
electorate is not binding under 125(3). -/
theorem referendum_binding_majority_witness :
    validate_referendum 300001 200000 1000000 = .ok true ∧
    validate_referendum 300000 200000 1000000 = .error (.referendum ("125(3)")
      ("Referendum not binding: turnout " ++ toString (500000 : Int) ++ "/"
        ++ toString (1000000 : Int) ++ " does not exceed 50%.")) := by
  constructor
  · exact (referendum_binding_majority 300001 200000 1000000
      (by decide) (by decide) (by decide)).1.mpr (by decide)
  · have h := (referendum_binding_majority 300000 200000 1000000
      (by decide) (by decide) (by decide)).2.1 (by decide)
    rw [h]
    decide

/-- C7: for a Polish citizen with no criminal record, the eligibility checks
are decided exactly by the age boundary — the Sejm check succeeds iff the
21st birthday falls on or before the election date, the Senate check iff the
30th does, and the presidential check (with at least 100000 signatures) iff
the 35th does; otherwise an `EligibilityError` is raised. -/
theorem eligibility_age_boundary (c : Citizen) (d : Date) (sig : Int)
    (hc : c.polish_citizen = true) (hr : c.criminal_record = false)
    (hs : MIN_SIGNATURES ≤ sig) :
    (check_sejm_eligibility c d = .ok true ↔
      nthBirthdayBy c.date_of_birth 21 d = true) ∧
    (nthBirthdayBy c.date_of_birth 21 d = false →
      check_sejm_eligibility c d = .error (.eligibility ("99(1)")
        ["must be at least 21 (is " ++ toString (c.age_at d) ++ ")"])) ∧
    (check_senate_eligibility c d = .ok true ↔
      nthBirthdayBy c.date_of_birth 30 d = true) ∧
    (nthBirthdayBy c.date_of_birth 30 d = false →
      check_senate_eligibility c d = .error (.eligibility ("99(2)")
        ["must be at least 30 (is " ++ toString (c.age_at d) ++ ")"])) ∧
    (check_presidential_eligibility c d sig = .ok true ↔
      nthBirthdayBy c.date_of_birth 35 d = true) ∧
    (nthBirthdayBy c.date_of_birth 35 d = false →
      check_presidential_eligibility c d sig = .error (.eligibility ("127(3)")
        ["must be at least 35 (is " ++ toString (c.age_at d) ++ ")"])) := by
  have hsig : ¬ (sig < MIN_SIGNATURES) := by omega
  have h21 := nthBirthdayBy_eq_age c d 21
  have h30 := nthBirthdayBy_eq_age c d 30
  have h35 := nthBirthdayBy_eq_age c d 35
  refine ⟨?_, ?_, ?_, ?_, ?_, ?_⟩
  · by_cases hage : c.age_at d < 21 <;>
      simp [check_sejm_eligibility, hc, hr, hage, h21] <;> omega
  · intro hb
    have hage : c.age_at d < 21 := by
      rw [h21] at hb
      simpa using hb
    simp [check_sejm_eligibility, hc, hr, hage]
  · by_cases hage : c.age_at d < 30 <;>
      simp [check_senate_eligibility, hc, hr, hage, h30] <;> omega
  · intro hb
    have hage : c.age_at d < 30 := by
      rw [h30] at hb
      simpa using hb
    simp [check_senate_eligibility, hc, hr, hage]
  · by_cases hage : c.age_at d < 35 <;>
      simp [check_presidential_eligibility, hc, hr, hage, hsig, h35] <;> omega
  · intro hb
    have hage : c.age_at d < 35 := by
      rw [h35] at hb
      simpa using hb
    simp [check_presidential_eligibility, hc, hr, hage, hsig]

/-- Witness for C7: a citizen whose 21st birthday falls exactly on the
election date is eligible for the Sejm; born one day later, the citizen is
rejected with an `EligibilityError`. -/
theorem eligibility_age_boundary_witness :
    check_sejm_eligibility ⟨"Exact 21", ⟨2004, 10, 15⟩, true, false⟩ ⟨2025, 10, 15⟩ =
      .ok true ∧
    check_sejm_eligibility ⟨"Almost 21", ⟨2004, 10, 16⟩, true, false⟩ ⟨2025, 10, 15⟩ =
      .error (.eligibility ("99(1)") ["must be at least 21 (is 20)"]) := by
  constructor
  · exact (eligibility_age_boundary ⟨"Exact 21", ⟨2004, 10, 15⟩, true, false⟩
      ⟨2025, 10, 15⟩ 100000 rfl rfl (by decide)).1.mpr (by decide)
  · have h := (eligibility_age_boundary ⟨"Almost 21", ⟨2004, 10, 16⟩, true, false⟩
      ⟨2025, 10, 15⟩ 100000 rfl rfl (by decide)).2.1 (by decide)
    rw [h]
    decide

/-- C8: a vote record whose chamber differs from the chamber the evaluator
expects fails as an assertion failure — a fatal programming-contract
violation outside the `ConstitutionalError` hierarchy — and never as a
recoverable error such as `QuorumError` or `MajorityError`. -/
theorem chamber_mismatch_is_fatal (v : VoteRecord) :
    (v.chamber = Chamber.SENATE →
      sejm_passes_bill v = .error (.assertionFailure ("Vote must be from the Sejm")) ∧
      sejm_overrides_senate v =
        .error (.assertionFailure ("Override vote must be from the Sejm")) ∧
      sejm_overrides_veto v =
        .error (.assertionFailure ("Veto override vote must be from the Sejm"))) ∧
    (v.chamber = Chamber.SEJM →
      senate_passes_bill v =
        .error (.assertionFailure ("Vote must be from the Senate"))) ∧
    (∀ m, (KError.assertionFailure m).isConstitutional = false) := by
  refine ⟨?_, ?_, fun m => rfl⟩
  · intro h
    refine ⟨?_, ?_, ?_⟩ <;>
      simp [sejm_passes_bill, sejm_overrides_senate, sejm_overrides_veto, h]
  · intro h
    simp [senate_passes_bill, h]

/-- Witness for C8: a Senate-labelled tally passed to `sejm_passes_bill`
fails with the assertion message, not with a constitutional error. -/
theorem chamber_mismatch_is_fatal_witness :
    sejm_passes_bill ⟨.SENATE, 60, 20, 0, none⟩ =
      .error (.assertionFailure ("Vote must be from the Sejm")) :=
  ((chamber_mismatch_is_fatal ⟨.SENATE, 60, 20, 0, none⟩).1 rfl).1

/-- C9: terminal stages admit no further transition — from `ENACTED` and
`REJECTED` (bills), `ADOPTED` and `REJECTED` (amendments) and `APPOINTED`
and `FAILED` (government formation) every transition is a fatal assertion
failure outside the `ConstitutionalError` hierarchy, never a successor
stage; and the government-formation machine reaches `FAILED` only through
the fixed chain — `FAILED` only from a failed vote at
`PRESIDENT_APPOINTS_RETRY`, which is reached only from a failed vote at
`SEJM_ELECTS`, which is reached only from a failed vote at
`CONFIDENCE_VOTE`. -/
theorem terminal_stages_admit_no_transition :
    (∀ i, billTransition .ENACTED i =
        .error (.assertionFailure ("Bill procedure already terminal: ENACTED")) ∧
      billTransition .REJECTED i =
        .error (.assertionFailure ("Bill procedure already terminal: REJECTED"))) ∧
    (∀ b, amendmentTransition .ADOPTED b =
        .error (.assertionFailure ("Amendment procedure already terminal: ADOPTED")) ∧
      amendmentTransition .REJECTED b =
        .error (.assertionFailure ("Amendment procedure already terminal: REJECTED"))) ∧
    (∀ b, govTransition .APPOINTED b =
        .error (.assertionFailure ("Government formation already terminal: APPOINTED")) ∧
      govTransition .FAILED b =
        .error (.assertionFailure ("Government formation already terminal: FAILED"))) ∧
    (∀ m, (KError.assertionFailure m).isConstitutional = false) ∧
    (∀ s b, govTransition s b = .ok .FAILED ↔
      s = .PRESIDENT_APPOINTS_RETRY ∧ b = false) ∧
    (∀ s b, govTransition s b = .ok .PRESIDENT_APPOINTS_RETRY ↔
      s = .SEJM_ELECTS ∧ b = false) ∧
    (∀ s b, govTransition s b = .ok .SEJM_ELECTS ↔
      s = .CONFIDENCE_VOTE ∧ b = false) := by
  refine ⟨fun i => ⟨rfl, rfl⟩, fun b => ⟨rfl, rfl⟩, fun b => ⟨rfl, rfl⟩,
    fun m => rfl, ?_, ?_, ?_⟩ <;>
    intro s b <;> cases s <;> cases b <;> simp [govTransition]

/-- Witness for C9: the fully failed formation run — confidence vote fails,
the Sejm fails to elect, the retry vote fails — ends in `FAILED`, and one
more transition attempt is a fatal assertion failure. -/
theorem terminal_stages_admit_no_transition_witness :
    govTransition .PRESIDENT_DESIGNATES false = .ok .CONFIDENCE_VOTE ∧
    govTransition .CONFIDENCE_VOTE false = .ok .SEJM_ELECTS ∧
    govTransition .SEJM_ELECTS false = .ok .PRESIDENT_APPOINTS_RETRY ∧
    govTransition .PRESIDENT_APPOINTS_RETRY false = .ok .FAILED ∧
    govTransition .FAILED false =
      .error (.assertionFailure ("Government formation already terminal: FAILED")) :=
  ⟨rfl,
   (terminal_stages_admit_no_transition.2.2.2.2.2.2 .CONFIDENCE_VOTE false).mpr ⟨rfl, rfl⟩,
   (terminal_stages_admit_no_transition.2.2.2.2.2.1 .SEJM_ELECTS false).mpr ⟨rfl, rfl⟩,
   (terminal_stages_admit_no_transition.2.2.2.2.1 .PRESIDENT_APPOINTS_RETRY false).mpr ⟨rfl, rfl⟩,
   (terminal_stages_admit_no_transition.2.2.1 false).2⟩

/-- C10: `check_incompatibility` accepts an office iff it is not one of the
twelve exact strings of `INCOMPATIBLE_WITH_DEPUTY`, and otherwise raises an
`IncompatibilityError` tagged article 103; membership is exact string
equality. -/
theorem incompatibility_exact_membership (office : String) :
    (check_incompatibility office = .ok true ↔
      office ∉ INCOMPATIBLE_WITH_DEPUTY) ∧
    (office ∈ INCOMPATIBLE_WITH_DEPUTY →
      check_incompatibility office = .error (.incompatibility ("103")
        ("A parliamentary mandate cannot be held jointly with the office of \x27"
          ++ office ++ "\x27."))) ∧
    INCOMPATIBLE_WITH_DEPUTY.length = 12 := by
  refine ⟨?_, ?_, rfl⟩
  · by_cases h : office ∈ INCOMPATIBLE_WITH_DEPUTY <;>
      simp [check_incompatibility, h]
  · intro h
    simp [check_incompatibility, h]

/-- Witness for C10: `Minister of Finance` and `Teacher` are compatible with
a mandate, while `President of the National Bank of Poland` is rejected
under article 103. -/
theorem incompatibility_exact_membership_witness :
    check_incompatibility ("Minister of Finance") = .ok true ∧
    check_incompatibility ("Teacher") = .ok true ∧
    check_incompatibility ("President of the National Bank of Poland") =
      .error (.incompatibility ("103")
        ("A parliamentary mandate cannot be held jointly with the office of \x27President of the National Bank of Poland\x27.")) := by
  refine ⟨?_, ?_, ?_⟩
  · exact (incompatibility_exact_membership ("Minister of Finance")).1.mpr (by decide)
  · exact (incompatibility_exact_membership ("Teacher")).1.mpr (by decide)
  · have h := (incompatibility_exact_membership
      ("President of the National Bank of Poland")).2.1 (by decide)
    rw [h]
    decide

end Konstytucja
